import Mathlib

/-
Verification of the poloseek parking-pass arbiter.

Shallow embedding of the reservation store (src/database.py), the ownership
transfer protocol and the reconciliation scheduler (src/poloseek.py).

Modelling conventions:
* Timestamps are integers (seconds).  The source stores ISO-8601 strings whose
  lexicographic order agrees with chronological order for the fixed-offset
  timestamps it writes, and compares them with SQLite datetime()/substr();
  integer order is the faithful abstraction of those comparisons.
* The SQLite database is a record: the singleton parking_pass row, the
  reservations table together with its AUTOINCREMENT counter, and the users
  table (user_id, parking_memo).
* The external transport scraper (src/scraper.py) is an opaque effect that the
  caller either observes succeeding or throwing; it is a parameter of the
  functions that invoke it.
* Discord notification and status-presence calls do not touch the database and
  are omitted; transfer attempts and reservation retirements are recorded in an
  explicit event trace so that scheduling claims can be stated.
-/

namespace Poloseek

/-- Row of the singleton parking_pass table (database.py, init_database). -/
structure PassRecord where
  current_owner_id : Int
  last_updated : Int
  deriving Repr, DecidableEq

/-- Row of the reservations table (database.py, init_database).  rid models the
AUTOINCREMENT primary key. -/
structure Reservation where
  rid : Nat
  user_id : Int
  start_time : Int
  end_time : Int
  active_status : Bool
  approved : Bool
  deriving Repr, DecidableEq

/-- The plain reservation dictionaries (user_id, start_time, end_time) that
database.py returns to the scheduler. -/
structure ResInfo where
  user_id : Int
  start_time : Int
  end_time : Int
  deriving Repr, DecidableEq

/-- SQLite database state. -/
structure DB where
  pass : Option PassRecord
  reservations : List Reservation
  next_id : Nat
  memos : List (Int × String)
  deriving Repr, DecidableEq

/-- Projection of a stored reservation to the dictionary shape. -/
def toInfo (r : Reservation) : ResInfo :=
  ⟨r.user_id, r.start_time, r.end_time⟩

/-- Python truthiness of get_user_memo (database.py): the memo of a user is
truthy when the users row exists and the memo is a non-empty string. -/
def memoTruthy (db : DB) (u : Int) : Bool :=
  match db.memos.lookup u with
  | some m => decide (m ≠ "")
  | none => false

/-- transfer_pass_with_lock (database.py lines 78-108): under BEGIN EXCLUSIVE,
re-read the owner and update current_owner_id and last_updated only when the
owner equals from_user_id; otherwise roll back and return False.  This is the
compare_and_set_pass primitive of the spec. -/
def transfer_pass_with_lock (db : DB) (fromU toU now : Int) : Bool × DB :=
  match db.pass with
  | some p =>
    if p.current_owner_id = fromU then
      (true, { db with pass := some ⟨toU, now⟩ })
    else
      (false, db)
  | none => (false, db)

/-- The three-disjunct WHERE clause of check_reservation_conflicts
(database.py lines 172-188), with the parameters substituted in source order:
(start < end_q AND end > start_q) twice, then (start >= start_q AND
end <= end_q). -/
def overlapsQuery (r : Reservation) (s e : Int) : Bool :=
  (decide (r.start_time < e) && decide (s < r.end_time)) ||
  (decide (r.start_time < e) && decide (s < r.end_time)) ||
  (decide (s ≤ r.start_time) && decide (r.end_time ≤ e))

/-- The overlap test stated by the spec: other.start < end AND other.end >
start.  Spec-side definition used to compare against the query actually issued
by check_reservation_conflicts. -/
def overlapsSpec (r : Reservation) (s e : Int) : Bool :=
  decide (r.start_time < e) && decide (s < r.end_time)

/-- check_reservation_conflicts (database.py lines 163-198): active, approved
rows matching the overlap disjunction; the exclude_user_id filter is appended
only when the argument is truthy (not None and nonzero). -/
def check_reservation_conflicts (rs : List Reservation) (s e : Int)
    (excl : Option Int) : List Reservation :=
  match excl with
  | some u =>
    if u ≠ 0 then
      rs.filter fun r =>
        r.active_status && r.approved && overlapsQuery r s e &&
          decide (r.user_id ≠ u)
    else
      rs.filter fun r => r.active_status && r.approved && overlapsQuery r s e
  | none =>
    rs.filter fun r => r.active_status && r.approved && overlapsQuery r s e

/-- Spec-side restatement of query_conflicts: exactly the active, approved
reservations meeting the spec's overlap test, minus the excluded user. -/
def conflictsSpec (rs : List Reservation) (s e : Int)
    (excl : Option Int) : List Reservation :=
  rs.filter fun r =>
    r.active_status && r.approved && overlapsSpec r s e &&
      (match excl with
       | some u => decide (r.user_id ≠ u)
       | none => true)

/-- create_reservation (database.py lines 200-214): unconditional INSERT of an
active, unapproved row; the AUTOINCREMENT counter assigns the id. -/
def create_reservation (db : DB) (u s e : Int) : DB :=
  { db with
      reservations := db.reservations ++ [⟨db.next_id, u, s, e, true, false⟩],
      next_id := db.next_id + 1 }

/-- approve_reservation_by_details (database.py lines 325-342): UPDATE
reservations SET approved = TRUE WHERE user_id AND start_time match AND
active_status = TRUE. -/
def approve_reservation_by_details (db : DB) (u s : Int) : DB :=
  { db with
      reservations := db.reservations.map fun r =>
        if r.user_id = u ∧ r.start_time = s ∧ r.active_status = true then
          { r with approved := true }
        else r }

/-- mark_reservation_inactive (database.py lines 357-366): UPDATE reservations
SET active_status = FALSE WHERE user_id AND start_time match. -/
def mark_reservation_inactive (db : DB) (u s : Int) : DB :=
  { db with
      reservations := db.reservations.map fun r =>
        if r.user_id = u ∧ r.start_time = s then
          { r with active_status := false }
        else r }

/-- clear_user_pending_reservations (database.py lines 368-377). -/
def clear_user_pending_reservations (db : DB) (u : Int) : DB :=
  { db with
      reservations := db.reservations.map fun r =>
        if r.user_id = u ∧ r.active_status = true then
          { r with active_status := false }
        else r }

/-- cleanup_old_reservations (database.py lines 401-418): DELETE inactive rows
whose end_time is before the cutoff. -/
def cleanup_old_reservations (db : DB) (cutoff : Int) : DB :=
  { db with
      reservations := db.reservations.filter fun r =>
        !(!r.active_status && decide (r.end_time < cutoff)) }

/-- Stable insertion by start_time, realising ORDER BY datetime(start_time). -/
def insertByStart (r : Reservation) : List Reservation → List Reservation
  | [] => [r]
  | x :: xs =>
    if r.start_time < x.start_time then r :: x :: xs
    else x :: insertByStart r xs

/-- Sort by start_time ascending (ORDER BY datetime(start_time)). -/
def sortByStart : List Reservation → List Reservation
  | [] => []
  | x :: xs => insertByStart x (sortByStart xs)

/-- get_user_active_reservations (database.py lines 241-258): active rows of
the user whose half-open interval start <= now < end covers now. -/
def get_user_active_reservations (db : DB) (u now : Int) : List Reservation :=
  sortByStart (db.reservations.filter fun r =>
    decide (r.user_id = u) && r.active_status &&
      decide (r.start_time ≤ now) && decide (now < r.end_time))

/-- The expired_reservations component of get_reservation_status
(database.py lines 124-129): active rows with end_time <= now. -/
def statusExpired (db : DB) (now : Int) : List ResInfo :=
  (db.reservations.filter fun r =>
    r.active_status && decide (r.end_time ≤ now)).map toInfo

/-- The next_approved component of get_reservation_status (database.py lines
132-141): earliest-starting active approved row with end_time > now. -/
def statusNextApproved (db : DB) (now : Int) : Option ResInfo :=
  ((sortByStart (db.reservations.filter fun r =>
    r.active_status && r.approved && decide (now < r.end_time))).head?).map toInfo

/-- is_reservation_ready_to_start (database.py lines 393-399): the 1-second
backward buffer, start_time <= now - 1. -/
def is_reservation_ready_to_start (r : ResInfo) (now : Int) : Bool :=
  decide (r.start_time ≤ now - 1)

/-- Outcome of the opaque external transport update (scraper.update_parking_pass):
it either returns normally or throws. -/
inductive ExtOutcome where
  | ok
  | fail
  deriving Repr, DecidableEq

/-- transfer_with_transport (poloseek.py lines 184-211).  If the target has no
truthy memo, a database-only transfer is done only for the default owner.
Otherwise the external update runs first; when it throws, the except branch
again falls back to a database-only transfer for the default owner and fails
for everyone else; when it returns, the local CAS is committed. -/
def transfer_with_transport (dflt : Int) (ext : ExtOutcome) (db : DB)
    (fromU toU now : Int) : Bool × DB :=
  if memoTruthy db toU = false then
    if toU = dflt then transfer_pass_with_lock db fromU toU now
    else (false, db)
  else
    match ext with
    | ExtOutcome.ok => transfer_pass_with_lock db fromU toU now
    | ExtOutcome.fail =>
      if toU = dflt then transfer_pass_with_lock db fromU toU now
      else (false, db)

/-- Events recorded while a tick runs: a reservation retired by
mark_reservation_inactive, or a transfer_with_transport invocation together
with its boolean outcome. -/
inductive Ev where
  | marked (u s : Int)
  | attempt (fromU toU : Int) (ok : Bool)
  deriving Repr, DecidableEq

/-- The fall-through of handle_expired_reservations (poloseek.py lines
148-153): transfer back to the default owner, appending the attempt event. -/
def tryDefault (dflt : Int) (ext : Int → ExtOutcome) (owner now : Int)
    (db : DB) (evs : List Ev) : DB × Bool × List Ev :=
  let t := transfer_with_transport dflt (ext dflt) db owner dflt now
  (t.2, t.1, evs ++ [Ev.attempt owner dflt t.1])

/-- One iteration of the loop of handle_expired_reservations (poloseek.py
lines 121-155): retire the reservation; if it belonged to the current owner,
try the ready next_approved target first and, when that fails or does not
apply, fall through to the default-owner transfer.  The Bool is True exactly
when the iteration returned True (a transfer succeeded). -/
def expiredStep (dflt : Int) (ext : Int → ExtOutcome) (owner : Int)
    (na : Option ResInfo) (now : Int) (db : DB) (r : ResInfo) :
    DB × Bool × List Ev :=
  let db1 := mark_reservation_inactive db r.user_id r.start_time
  let m := Ev.marked r.user_id r.start_time
  if owner = r.user_id then
    match na with
    | some x =>
      if x.start_time ≤ now then
        let t1 := transfer_with_transport dflt (ext x.user_id) db1 owner x.user_id now
        if t1.1 then (t1.2, true, [m, Ev.attempt owner x.user_id true])
        else tryDefault dflt ext owner now t1.2 [m, Ev.attempt owner x.user_id false]
      else tryDefault dflt ext owner now db1 [m]
    | none => tryDefault dflt ext owner now db1 [m]
  else (db1, false, [m])

/-- handle_expired_reservations (poloseek.py lines 121-155): iterate over the
expired list; return True immediately after a successful transfer, otherwise
keep going.  Returns (database, transfer_occurred, event trace). -/
def handle_expired_go (dflt : Int) (ext : Int → ExtOutcome) (owner : Int)
    (na : Option ResInfo) (now : Int) :
    List ResInfo → DB → DB × Bool × List Ev
  | [], db => (db, false, [])
  | r :: rest, db =>
    let s := expiredStep dflt ext owner na now db r
    if s.2.1 then (s.1, true, s.2.2)
    else
      let g := handle_expired_go dflt ext owner na now rest s.1
      (g.1, g.2.1, s.2.2 ++ g.2.2)

/-- handle_scheduled_starts (poloseek.py lines 157-182): transfer to the next
scheduled reservation's user only when it is ready (1-second buffer), its user
is not already the owner, and the owner is the default owner or has no active
reservation covering now. -/
def handle_scheduled_starts (dflt : Int) (ext : Int → ExtOutcome) (db : DB)
    (ns : ResInfo) (owner now : Int) : DB × List Ev :=
  if is_reservation_ready_to_start ns now = true ∧ owner ≠ ns.user_id then
    if owner = dflt ∨ (get_user_active_reservations db owner now).isEmpty = true then
      let t := transfer_with_transport dflt (ext ns.user_id) db owner ns.user_id now
      (t.2, [Ev.attempt owner ns.user_id t.1])
    else (db, [])
  else (db, [])

/-- The tail of the tick after the expiration phase (poloseek.py lines
103-105): run handle_scheduled_starts only when no expiration transfer
occurred and a next_approved exists; g is the expiration phase's result. -/
def tickAfterExpired (dflt : Int) (ext : Int → ExtOutcome) (owner now : Int)
    (na : Option ResInfo) (g : DB × Bool × List Ev) :
    DB × List Ev × Bool × Bool :=
  match na with
  | some x =>
    if g.2.1 then (g.1, g.2.2, true, false)
    else
      let h := handle_scheduled_starts dflt ext g.1 x owner now
      (h.1, g.2.2 ++ h.2, false, true)
  | none => (g.1, g.2.2, g.2.1, false)

/-- One reconciliation tick, check_expired_reservations (poloseek.py lines
74-108): snapshot owner, expired and next_approved via get_reservation_status,
run the expiration phase, then the scheduled-start phase only when no
expiration transfer occurred and a next_approved exists.  Returns
(database, trace, expiration transfer occurred, scheduled phase ran). -/
def check_expired_tick (dflt : Int) (ext : Int → ExtOutcome) (db : DB)
    (now : Int) : DB × List Ev × Bool × Bool :=
  match db.pass with
  | none => (db, [], false, false)
  | some p =>
    tickAfterExpired dflt ext p.current_owner_id now (statusNextApproved db now)
      (handle_expired_go dflt ext p.current_owner_id (statusNextApproved db now)
        now (statusExpired db now) db)

/-- Successful transfer attempts in a trace. -/
def isSuccessAttempt : Ev → Bool
  | Ev.attempt _ _ true => true
  | _ => false

/-- Number of successful transfers recorded in a trace. -/
def countSucc (l : List Ev) : Nat :=
  (l.filter isSuccessAttempt).length

/-- The reservation-table mutators of database.py, as one operation type, used
to state invariants over arbitrary operation sequences. -/
inductive DBOp where
  | createRes (u s e : Int)
  | approveRes (u s : Int)
  | inactivateRes (u s : Int)
  | clearPending (u : Int)
  | cleanupOld (cutoff : Int)
  | transferPass (fromU toU now : Int)
  deriving Repr, DecidableEq

/-- Interpretation of one database operation. -/
def applyOp : DBOp → DB → DB
  | DBOp.createRes u s e, db => create_reservation db u s e
  | DBOp.approveRes u s, db => approve_reservation_by_details db u s
  | DBOp.inactivateRes u s, db => mark_reservation_inactive db u s
  | DBOp.clearPending u, db => clear_user_pending_reservations db u
  | DBOp.cleanupOld c, db => cleanup_old_reservations db c
  | DBOp.transferPass f t n, db => (transfer_pass_with_lock db f t n).2

/-- Interpretation of a sequence of database operations. -/
def applyOps (ops : List DBOp) (db : DB) : DB :=
  ops.foldl (fun d op => applyOp op d) db

/-- Well-formedness delivered by AUTOINCREMENT: every stored rid is below the
counter and rids are pairwise distinct. -/
def ridsOk (db : DB) : Prop :=
  (∀ r ∈ db.reservations, r.rid < db.next_id) ∧
    db.reservations.Pairwise fun a b => a.rid ≠ b.rid

/-- Number of active reservations carrying a given (user_id, start_time)
identity pair. -/
def activePairCount (db : DB) (u s : Int) : Nat :=
  (db.reservations.filter fun r =>
    decide (r.user_id = u) && decide (r.start_time = s) && r.active_status).length

/-- Every stored reservation carrying the given rid is approved. -/
def approvedLocked (db : DB) (i : Nat) : Prop :=
  ∀ x ∈ db.reservations, x.rid = i → x.approved = true

/-- Closed form of the CAS when the pass row exists. -/
theorem cas_eq (db : DB) (p : PassRecord) (f t now : Int)
    (hp : db.pass = some p) :
    transfer_pass_with_lock db f t now =
      if p.current_owner_id = f then (true, { db with pass := some ⟨t, now⟩ })
      else (false, db) := by
  unfold transfer_pass_with_lock
  rw [hp]

/-- C3: compare_and_set_pass semantics of transfer_pass_with_lock: when the
current owner differs from the expected owner it returns false and leaves the
whole database, in particular current_owner_id and last_updated, unchanged;
when it matches it sets the owner and the timestamp and returns true. -/
theorem C3_cas_semantics (db : DB) (p : PassRecord) (f t now : Int)
    (hp : db.pass = some p) :
    (p.current_owner_id ≠ f → transfer_pass_with_lock db f t now = (false, db)) ∧
    (p.current_owner_id = f →
      transfer_pass_with_lock db f t now =
        (true, { db with pass := some ⟨t, now⟩ })) := by
  constructor
  · intro hne
    rw [cas_eq db p f t now hp, if_neg hne]
  · intro heq
    rw [cas_eq db p f t now hp, if_pos heq]

/-- C3 witness: the CAS at a concrete state, mismatching and matching. -/
theorem C3_cas_semantics_witness :
    transfer_pass_with_lock ⟨some ⟨1, 0⟩, [], 1, []⟩ 2 3 50 =
      (false, ⟨some ⟨1, 0⟩, [], 1, []⟩) ∧
    transfer_pass_with_lock ⟨some ⟨1, 0⟩, [], 1, []⟩ 1 3 50 =
      (true, ⟨some ⟨3, 50⟩, [], 1, []⟩) :=
  ⟨(C3_cas_semantics ⟨some ⟨1, 0⟩, [], 1, []⟩ ⟨1, 0⟩ 2 3 50 rfl).1 (by decide),
   (C3_cas_semantics ⟨some ⟨1, 0⟩, [], 1, []⟩ ⟨1, 0⟩ 1 3 50 rfl).2 rfl⟩

/-- C9 counterexample: for the pair (from, to) = (5, 5) the claim fails: the
first transfer_local(5, 5) succeeds and the repeated identical call succeeds
again (the owner is still 5), instead of failing as claimed for every pair. -/
theorem C9_counterexample :
    (transfer_pass_with_lock ⟨some ⟨5, 0⟩, [], 1, []⟩ 5 5 100).1 = true ∧
    (transfer_pass_with_lock
      (transfer_pass_with_lock ⟨some ⟨5, 0⟩, [], 1, []⟩ 5 5 100).2 5 5 200).1 = true := by
  decide

/-- C9 amended: for every pair of distinct users (from, to), after a successful
transfer_local(from, to) the repeated identical call returns false and leaves
the state unchanged, because the owner has already changed to to. -/
theorem C9_amended_repeat_fails (db : DB) (f t now now2 : Int) (hft : f ≠ t)
    (h1 : (transfer_pass_with_lock db f t now).1 = true) :
    transfer_pass_with_lock (transfer_pass_with_lock db f t now).2 f t now2 =
      (false, (transfer_pass_with_lock db f t now).2) := by
  obtain ⟨p, hp⟩ : ∃ q, db.pass = some q := by
    cases hpp : db.pass with
    | none =>
      rw [show transfer_pass_with_lock db f t now = (false, db) from by
        unfold transfer_pass_with_lock; rw [hpp]] at h1
      simp at h1
    | some q => exact ⟨q, rfl⟩
  rw [cas_eq db p f t now hp] at h1
  by_cases ho : p.current_owner_id = f
  · have e1 : transfer_pass_with_lock db f t now =
        (true, { db with pass := some ⟨t, now⟩ }) := by
      rw [cas_eq db p f t now hp, if_pos ho]
    rw [e1]
    rw [cas_eq ({ db with pass := some ⟨t, now⟩ }) ⟨t, now⟩ f t now2 rfl,
      if_neg (show ¬((⟨t, now⟩ : PassRecord).current_owner_id = f) from
        fun he => hft he.symm)]
  · rw [if_neg ho] at h1
    simp at h1

/-- C9 witness: concrete distinct pair (1, 2). -/
theorem C9_amended_repeat_fails_witness :
    transfer_pass_with_lock
      (transfer_pass_with_lock ⟨some ⟨1, 0⟩, [], 1, []⟩ 1 2 100).2 1 2 200 =
      (false, (transfer_pass_with_lock ⟨some ⟨1, 0⟩, [], 1, []⟩ 1 2 100).2) :=
  C9_amended_repeat_fails ⟨some ⟨1, 0⟩, [], 1, []⟩ 1 2 100 200
    (by decide) (by decide)

/-- C1 counterexample: in the desync scenario (target memo present, external
apply succeeds, local CAS fails because the owner is 2 instead of the expected
1), transfer_with_transport returns the bare Boolean false: exactly the value
it returns in the ExternalEffectFailed scenario at the same state.  Its result
type carries no failure kind, so no Desync outcome distinct from a generic
false or from ExternalEffectFailed is reported (the local record does stay
unchanged). -/
theorem C1_counterexample :
    (transfer_with_transport 0 ExtOutcome.ok
      ⟨some ⟨2, 0⟩, [], 1, [(3, "car")]⟩ 1 3 100).1 = false ∧
    transfer_with_transport 0 ExtOutcome.ok
      ⟨some ⟨2, 0⟩, [], 1, [(3, "car")]⟩ 1 3 100 =
    transfer_with_transport 0 ExtOutcome.fail
      ⟨some ⟨2, 0⟩, [], 1, [(3, "car")]⟩ 1 3 100 ∧
    memoTruthy ⟨some ⟨2, 0⟩, [], 1, [(3, "car")]⟩ 3 = true ∧
    (transfer_with_transport 0 ExtOutcome.ok
      ⟨some ⟨2, 0⟩, [], 1, [(3, "car")]⟩ 1 3 100).2 =
      ⟨some ⟨2, 0⟩, [], 1, [(3, "car")]⟩ := by
  decide

/-- C1 amended: when the external apply succeeds but the local CAS fails (the
owner no longer equals the expected from), transfer_with_transport returns the
generic false with the local pass record unchanged; it does not report a
distinct Desync failure kind. -/
theorem C1_amended_desync_generic_false (dflt : Int) (db : DB) (p : PassRecord)
    (f t now : Int) (hp : db.pass = some p) (hne : p.current_owner_id ≠ f)
    (hm : memoTruthy db t = true) :
    transfer_with_transport dflt ExtOutcome.ok db f t now = (false, db) := by
  unfold transfer_with_transport transfer_pass_with_lock
  rw [hm, hp]
  simp [hne]

/-- C1 witness: the desync scenario at a concrete state. -/
theorem C1_amended_desync_generic_false_witness :
    transfer_with_transport 5 ExtOutcome.ok
      ⟨some ⟨2, 0⟩, [], 1, [(3, "car")]⟩ 1 3 100 =
      (false, ⟨some ⟨2, 0⟩, [], 1, [(3, "car")]⟩) :=
  C1_amended_desync_generic_false 5 ⟨some ⟨2, 0⟩, [], 1, [(3, "car")]⟩ ⟨2, 0⟩
    1 3 100 rfl (by decide) (by decide)

/-- C2 counterexample: when the target is the default owner (0 here, with a
registered memo so the external call is really attempted) and the external
apply throws, the except branch of transfer_with_transport falls back to a
database-only transfer: the call returns true and the local pass record IS
mutated, contradicting the claim that for every target user, including the
default owner, the operation fails and the record stays unchanged. -/
theorem C2_counterexample :
    (transfer_with_transport 0 ExtOutcome.fail
      ⟨some ⟨1, 0⟩, [], 1, [(0, "car")]⟩ 1 0 100).1 = true ∧
    (transfer_with_transport 0 ExtOutcome.fail
      ⟨some ⟨1, 0⟩, [], 1, [(0, "car")]⟩ 1 0 100).2.pass = some ⟨0, 100⟩ := by
  decide

/-- C2 amended: when the external apply throws and the target user is NOT the
default owner, the whole operation fails (returns false) and the database,
in particular the pass record, is left exactly as before; for the default
owner the code instead falls back to a local-only transfer that may commit. -/
theorem C2_amended_nondefault_unchanged (dflt : Int) (db : DB) (f t now : Int)
    (ht : t ≠ dflt) (hm : memoTruthy db t = true) :
    transfer_with_transport dflt ExtOutcome.fail db f t now = (false, db) := by
  unfold transfer_with_transport
  rw [hm]
  simp [ht]

/-- C2 witness: external failure towards non-default user 3 at a concrete
state leaves everything unchanged. -/
theorem C2_amended_nondefault_unchanged_witness :
    transfer_with_transport 9 ExtOutcome.fail
      ⟨some ⟨1, 0⟩, [], 1, [(3, "car")]⟩ 1 3 100 =
      (false, ⟨some ⟨1, 0⟩, [], 1, [(3, "car")]⟩) :=
  C2_amended_nondefault_unchanged 9 ⟨some ⟨1, 0⟩, [], 1, [(3, "car")]⟩ 1 3 100
    (by decide) (by decide)

/-- Pointwise agreement of the query's three-disjunct overlap test with the
spec's single overlap test, for any reservation with a nonempty interval: the
containment disjunct is subsumed by the strict-overlap disjunct. -/
theorem overlaps_eq (r : Reservation) (s e : Int) (h : r.start_time < r.end_time) :
    overlapsQuery r s e = overlapsSpec r s e := by
  have hiff : (overlapsQuery r s e = true) ↔ (overlapsSpec r s e = true) := by
    simp only [overlapsQuery, overlapsSpec, Bool.or_eq_true, Bool.and_eq_true,
      decide_eq_true_eq]
    omega
  exact Bool.eq_iff_iff.mpr hiff

/-- C4: for every stored reservation set whose rows have nonempty intervals
(start < end, enforced by the request command before every insert) and every
query interval, check_reservation_conflicts returns exactly the active,
approved reservations meeting the spec's overlap test other.start < end AND
other.end > start, minus the optionally excluded (nonzero) user; hence it is
nonempty exactly when some such overlapping reservation exists. -/
theorem C4_query_conflicts (rs : List Reservation) (s e : Int) (excl : Option Int)
    (hv : ∀ r ∈ rs, r.start_time < r.end_time)
    (hx : ∀ u, excl = some u → u ≠ 0) :
    check_reservation_conflicts rs s e excl = conflictsSpec rs s e excl ∧
    (check_reservation_conflicts rs s e excl ≠ [] ↔
      ∃ r, r ∈ rs ∧ r.active_status = true ∧ r.approved = true ∧
        r.start_time < e ∧ s < r.end_time ∧ ∀ u, excl = some u → r.user_id ≠ u) := by
  have hmain : check_reservation_conflicts rs s e excl = conflictsSpec rs s e excl := by
    cases excl with
    | none =>
      simp only [check_reservation_conflicts, conflictsSpec]
      exact List.filter_congr fun r hr => by
        simp [overlaps_eq r s e (hv r hr)]
    | some u =>
      have hu : u ≠ 0 := hx u rfl
      simp only [check_reservation_conflicts, conflictsSpec, if_pos hu]
      exact List.filter_congr fun r hr => by
        simp [overlaps_eq r s e (hv r hr)]
  refine ⟨hmain, ?_⟩
  rw [hmain]
  cases excl with
  | none =>
    simp only [conflictsSpec]
    rw [Ne, List.filter_eq_nil_iff]
    push_neg
    constructor
    · rintro ⟨r, hr, hp⟩
      simp only [Bool.and_eq_true, decide_eq_true_eq, overlapsSpec] at hp
      obtain ⟨⟨⟨h1, h2⟩, h3, h4⟩, -⟩ := hp
      exact ⟨r, hr, h1, h2, h3, h4, fun u hu => by cases hu⟩
    · rintro ⟨r, hr, h1, h2, h3, h4, -⟩
      refine ⟨r, hr, ?_⟩
      simp only [Bool.and_eq_true, decide_eq_true_eq, overlapsSpec]
      exact ⟨⟨⟨h1, h2⟩, h3, h4⟩, trivial⟩
  | some u =>
    simp only [conflictsSpec]
    rw [Ne, List.filter_eq_nil_iff]
    push_neg
    constructor
    · rintro ⟨r, hr, hp⟩
      simp only [Bool.and_eq_true, decide_eq_true_eq, overlapsSpec] at hp
      obtain ⟨⟨⟨h1, h2⟩, h3, h4⟩, h5⟩ := hp
      exact ⟨r, hr, h1, h2, h3, h4, fun v hv2 => by cases hv2; exact h5⟩
    · rintro ⟨r, hr, h1, h2, h3, h4, h5⟩
      refine ⟨r, hr, ?_⟩
      simp only [Bool.and_eq_true, decide_eq_true_eq, overlapsSpec]
      exact ⟨⟨⟨h1, h2⟩, h3, h4⟩, h5 u rfl⟩

/-- C4 witness: one approved overlapping reservation, no exclusion. -/
theorem C4_query_conflicts_witness :
    (check_reservation_conflicts [⟨0, 1, 10, 20, true, true⟩] 15 25 none =
      conflictsSpec [⟨0, 1, 10, 20, true, true⟩] 15 25 none) ∧
    (check_reservation_conflicts [⟨0, 1, 10, 20, true, true⟩] 15 25 none ≠ [] ↔
      ∃ r, r ∈ [(⟨0, 1, 10, 20, true, true⟩ : Reservation)] ∧
        r.active_status = true ∧ r.approved = true ∧
        r.start_time < 25 ∧ 15 < r.end_time ∧
        ∀ u, (none : Option Int) = some u → r.user_id ≠ u) :=
  C4_query_conflicts [⟨0, 1, 10, 20, true, true⟩] 15 25 none
    (by decide) (fun u h => nomatch h)

/-- C10: the falsy exclude_user_id check of check_reservation_conflicts:
passing exclude_user = 0 silently skips the exclusion (the result equals the
unexcluded query, and overlapping active approved reservations of user 0 are
still returned), while for every nonzero user id the exclusion filter really
removes that user. -/
theorem C10_falsy_exclude :
    (∀ rs s e, check_reservation_conflicts rs s e (some 0) =
      check_reservation_conflicts rs s e none) ∧
    (∀ rs s e r, r ∈ rs → r.user_id = 0 → r.active_status = true →
      r.approved = true → overlapsQuery r s e = true →
      r ∈ check_reservation_conflicts rs s e (some 0)) ∧
    (∀ rs s e u, u ≠ 0 → ∀ r ∈ check_reservation_conflicts rs s e (some u),
      r.user_id ≠ u) := by
  refine ⟨?_, ?_, ?_⟩
  · intro rs s e
    simp [check_reservation_conflicts]
  · intro rs s e r hr h0 ha hap ho
    simp only [check_reservation_conflicts]
    rw [if_neg (by simp)]
    exact List.mem_filter.mpr ⟨hr, by simp [ha, hap, ho]⟩
  · intro rs s e u hu r hr
    simp only [check_reservation_conflicts, if_pos hu] at hr
    have h2 := (List.mem_filter.mp hr).2
    simp only [Bool.and_eq_true, decide_eq_true_eq] at h2
    exact h2.2

/-- C10 witness: exclusion by 0 keeps user 0's overlapping reservation; a
nonzero exclusion removes the excluded user. -/
theorem C10_falsy_exclude_witness :
    (check_reservation_conflicts [⟨0, 0, 10, 20, true, true⟩] 5 15 (some 0) =
      check_reservation_conflicts [⟨0, 0, 10, 20, true, true⟩] 5 15 none) ∧
    (⟨0, 0, 10, 20, true, true⟩ : Reservation) ∈
      check_reservation_conflicts [⟨0, 0, 10, 20, true, true⟩] 5 15 (some 0) ∧
    (⟨0, 3, 10, 20, true, true⟩ : Reservation).user_id ≠ 7 :=
  ⟨C10_falsy_exclude.1 [⟨0, 0, 10, 20, true, true⟩] 5 15,
   C10_falsy_exclude.2.1 [⟨0, 0, 10, 20, true, true⟩] 5 15
     ⟨0, 0, 10, 20, true, true⟩ (by decide) rfl rfl rfl (by decide),
   C10_falsy_exclude.2.2 [⟨0, 3, 10, 20, true, true⟩] 5 15 7 (by decide)
     ⟨0, 3, 10, 20, true, true⟩ (by decide)⟩

/-- Successful transfers in a concatenated trace add up. -/
theorem countSucc_append (a b : List Ev) :
    countSucc (a ++ b) = countSucc a + countSucc b := by
  simp [countSucc, List.filter_append]

/-- One expiration-loop iteration records exactly one successful transfer when
it stops, none otherwise. -/
theorem expiredStep_succ_count (dflt : Int) (ext : Int → ExtOutcome) (owner : Int)
    (na : Option ResInfo) (now : Int) (db : DB) (r : ResInfo) :
    countSucc (expiredStep dflt ext owner na now db r).2.2 =
      (if (expiredStep dflt ext owner na now db r).2.1 = true then 1 else 0) := by
  cases na with
  | none =>
    simp only [expiredStep, tryDefault]
    by_cases ho : owner = r.user_id
    · simp only [if_pos ho]
      cases hb : (transfer_with_transport dflt (ext dflt)
          (mark_reservation_inactive db r.user_id r.start_time) owner dflt now).1 <;>
        simp [countSucc, isSuccessAttempt, hb]
    · simp [if_neg ho, countSucc, isSuccessAttempt]
  | some x =>
    simp only [expiredStep, tryDefault]
    by_cases ho : owner = r.user_id
    · simp only [if_pos ho]
      by_cases hs : x.start_time ≤ now
      · simp only [if_pos hs]
        cases h1 : (transfer_with_transport dflt (ext x.user_id)
            (mark_reservation_inactive db r.user_id r.start_time) owner x.user_id now).1
        · simp only [h1, Bool.false_eq_true, if_false]
          cases h2 : (transfer_with_transport dflt (ext dflt)
              (transfer_with_transport dflt (ext x.user_id)
                (mark_reservation_inactive db r.user_id r.start_time) owner x.user_id now).2
              owner dflt now).1 <;>
            simp [countSucc, isSuccessAttempt, h2]
        · simp [h1, countSucc, isSuccessAttempt]
      · simp only [if_neg hs]
        cases h2 : (transfer_with_transport dflt (ext dflt)
            (mark_reservation_inactive db r.user_id r.start_time) owner dflt now).1 <;>
          simp [countSucc, isSuccessAttempt, h2]
    · simp [if_neg ho, countSucc, isSuccessAttempt]

/-- The expiration phase records exactly one successful transfer when it
reports one, none otherwise. -/
theorem handle_expired_go_succ_count (dflt : Int) (ext : Int → ExtOutcome)
    (owner : Int) (na : Option ResInfo) (now : Int) :
    ∀ (l : List ResInfo) (db : DB),
    countSucc (handle_expired_go dflt ext owner na now l db).2.2 =
      (if (handle_expired_go dflt ext owner na now l db).2.1 = true then 1 else 0)
  | [], db => by simp [handle_expired_go, countSucc]
  | r :: rest, db => by
    have hs := expiredStep_succ_count dflt ext owner na now db r
    have ih := handle_expired_go_succ_count dflt ext owner na now rest
      (expiredStep dflt ext owner na now db r).1
    simp only [handle_expired_go]
    by_cases h : (expiredStep dflt ext owner na now db r).2.1 = true
    · rw [if_pos h]
      rw [h, if_pos rfl] at hs
      simpa using hs
    · rw [if_neg h]
      simp only
      rw [countSucc_append]
      rw [if_neg h] at hs
      simp [hs, ih]

/-- After a successful iteration the remaining expired list is irrelevant: the
loop returns immediately. -/
theorem handle_expired_go_stop (dflt : Int) (ext : Int → ExtOutcome) (owner : Int)
    (na : Option ResInfo) (now : Int) (r : ResInfo) (rest rest2 : List ResInfo)
    (db : DB) (h : (expiredStep dflt ext owner na now db r).2.1 = true) :
    handle_expired_go dflt ext owner na now (r :: rest) db =
      handle_expired_go dflt ext owner na now (r :: rest2) db := by
  simp only [handle_expired_go]
  rw [if_pos h, if_pos h]

/-- The scheduled-start phase is entered only when the expiration phase
reported no transfer. -/
theorem tickAfterExpired_sched (dflt : Int) (ext : Int → ExtOutcome)
    (owner now : Int) (na : Option ResInfo) (g : DB × Bool × List Ev)
    (h : (tickAfterExpired dflt ext owner now na g).2.2.1 = true) :
    (tickAfterExpired dflt ext owner now na g).2.2.2 = false := by
  cases na with
  | none => rfl
  | some x =>
    by_cases hg : g.2.1 = true
    · simp [tickAfterExpired, hg]
    · simp [tickAfterExpired, hg] at h

/-- At tick level: a reported expiration transfer suppresses the
scheduled-start phase. -/
theorem tick_sched_only_without_transfer (dflt : Int) (ext : Int → ExtOutcome)
    (db : DB) (now : Int)
    (h : (check_expired_tick dflt ext db now).2.2.1 = true) :
    (check_expired_tick dflt ext db now).2.2.2 = false := by
  unfold check_expired_tick at h ⊢
  revert h
  cases db.pass with
  | none =>
    intro h
    exact absurd (show false = true from h) Bool.false_ne_true
  | some p =>
    intro h
    exact tickAfterExpired_sched _ _ _ _ _ _ h

/-- C5 counterexample: a call of handle_expired_reservations with two expired
records of user 1 and an owner snapshot (1) that is stale with respect to the
stored pass row (owner 2, as a concurrent command can produce): the transfer
attempt for the first expiration fails at the CAS, yet processing continues, a
further expiration is processed (second marked event) and a second transfer is
attempted — refuting "once any transfer succeeds or is attempted, no further
expirations are processed that tick". -/
theorem C5_counterexample :
    (handle_expired_go 9 (fun _ => ExtOutcome.ok) 1 none 100
      [⟨1, 10, 20⟩, ⟨1, 30, 40⟩] ⟨some ⟨2, 0⟩, [], 1, []⟩).2.2 =
      [Ev.marked 1 10, Ev.attempt 1 9 false,
       Ev.marked 1 30, Ev.attempt 1 9 false] ∧
    (handle_expired_go 9 (fun _ => ExtOutcome.ok) 1 none 100
      [⟨1, 10, 20⟩, ⟨1, 30, 40⟩] ⟨some ⟨2, 0⟩, [], 1, []⟩).2.1 = false := by
  decide

/-- C5 amended: per expiration pass at most one transfer SUCCEEDS (the trace
holds exactly one success when a transfer is reported, none otherwise);
processing stops immediately after the first successful transfer (the
remaining expired records are irrelevant); failed attempts do not stop the
loop; and the scheduled-start phase runs only when the expiration phase
reported no successful transfer. -/
theorem C5_amended_single_success :
    (∀ (dflt : Int) (ext : Int → ExtOutcome) (owner : Int) (na : Option ResInfo)
      (now : Int) (l : List ResInfo) (db : DB),
      countSucc (handle_expired_go dflt ext owner na now l db).2.2 =
        if (handle_expired_go dflt ext owner na now l db).2.1 = true then 1 else 0) ∧
    (∀ (dflt : Int) (ext : Int → ExtOutcome) (owner : Int) (na : Option ResInfo)
      (now : Int) (r : ResInfo) (rest rest2 : List ResInfo) (db : DB),
      (expiredStep dflt ext owner na now db r).2.1 = true →
      handle_expired_go dflt ext owner na now (r :: rest) db =
        handle_expired_go dflt ext owner na now (r :: rest2) db) ∧
    (∀ (dflt : Int) (ext : Int → ExtOutcome) (db : DB) (now : Int),
      (check_expired_tick dflt ext db now).2.2.1 = true →
      (check_expired_tick dflt ext db now).2.2.2 = false) :=
  ⟨fun dflt ext owner na now l db =>
    handle_expired_go_succ_count dflt ext owner na now l db,
   fun dflt ext owner na now r rest rest2 db h =>
    handle_expired_go_stop dflt ext owner na now r rest rest2 db h,
   fun dflt ext db now h =>
    tick_sched_only_without_transfer dflt ext db now h⟩

/-- C5 witness: concrete runs with a successful expiration transfer. -/
theorem C5_amended_single_success_witness :
    countSucc (handle_expired_go 9 (fun _ => ExtOutcome.ok) 1 none 100
      [⟨1, 10, 20⟩] ⟨some ⟨1, 0⟩, [⟨0, 1, 10, 20, true, false⟩], 1, []⟩).2.2 =
      (if (handle_expired_go 9 (fun _ => ExtOutcome.ok) 1 none 100
        [⟨1, 10, 20⟩] ⟨some ⟨1, 0⟩, [⟨0, 1, 10, 20, true, false⟩], 1, []⟩).2.1 = true
       then 1 else 0) ∧
    handle_expired_go 9 (fun _ => ExtOutcome.ok) 1 none 100
      [⟨1, 10, 20⟩, ⟨1, 30, 40⟩] ⟨some ⟨1, 0⟩, [⟨0, 1, 10, 20, true, false⟩], 1, []⟩ =
    handle_expired_go 9 (fun _ => ExtOutcome.ok) 1 none 100
      [⟨1, 10, 20⟩] ⟨some ⟨1, 0⟩, [⟨0, 1, 10, 20, true, false⟩], 1, []⟩ ∧
    (check_expired_tick 9 (fun _ => ExtOutcome.ok)
      ⟨some ⟨1, 0⟩, [⟨0, 1, 10, 20, true, false⟩], 1, []⟩ 100).2.2.2 = false :=
  ⟨C5_amended_single_success.1 9 (fun _ => ExtOutcome.ok) 1 none 100
    [⟨1, 10, 20⟩] ⟨some ⟨1, 0⟩, [⟨0, 1, 10, 20, true, false⟩], 1, []⟩,
   C5_amended_single_success.2.1 9 (fun _ => ExtOutcome.ok) 1 none 100
    ⟨1, 10, 20⟩ [⟨1, 30, 40⟩] [] ⟨some ⟨1, 0⟩, [⟨0, 1, 10, 20, true, false⟩], 1, []⟩
    (by decide),
   C5_amended_single_success.2.2 9 (fun _ => ExtOutcome.ok)
    ⟨some ⟨1, 0⟩, [⟨0, 1, 10, 20, true, false⟩], 1, []⟩ 100 (by decide)⟩

/-- C6: handle_scheduled_starts attempts a transfer (nonempty trace) only when
the next scheduled reservation is ready under the 1-second backward buffer,
its user is not already the owner, and the owner is the default owner or has
no active reservation covering now; and the attempt targets exactly the next
scheduled reservation's user. -/
theorem C6_scheduled_start_guard (dflt : Int) (ext : Int → ExtOutcome) (db : DB)
    (ns : ResInfo) (owner now : Int)
    (h : (handle_scheduled_starts dflt ext db ns owner now).2 ≠ []) :
    is_reservation_ready_to_start ns now = true ∧ owner ≠ ns.user_id ∧
    (owner = dflt ∨ (get_user_active_reservations db owner now).isEmpty = true) ∧
    ∃ ok, (handle_scheduled_starts dflt ext db ns owner now).2 =
      [Ev.attempt owner ns.user_id ok] := by
  unfold handle_scheduled_starts at h ⊢
  split_ifs at h ⊢ with h1 h2
  · exact ⟨h1.1, h1.2, h2, _, rfl⟩
  · exact absurd rfl h
  · exact absurd rfl h

/-- C6 witness: a concrete scheduled start (default owner 0, reservation of
user 7 ready at now = 100 with start 98 <= 99). -/
theorem C6_scheduled_start_guard_witness :
    is_reservation_ready_to_start ⟨7, 98, 200⟩ 100 = true ∧ (0 : Int) ≠ 7 ∧
    ((0 : Int) = 0 ∨ (get_user_active_reservations
      ⟨some ⟨0, 0⟩, [], 1, [(7, "x")]⟩ 0 100).isEmpty = true) ∧
    ∃ ok, (handle_scheduled_starts 0 (fun _ => ExtOutcome.ok)
      ⟨some ⟨0, 0⟩, [], 1, [(7, "x")]⟩ ⟨7, 98, 200⟩ 0 100).2 =
      [Ev.attempt 0 7 ok] :=
  C6_scheduled_start_guard 0 (fun _ => ExtOutcome.ok)
    ⟨some ⟨0, 0⟩, [], 1, [(7, "x")]⟩ ⟨7, 98, 200⟩ 0 100 (by decide)

/-- Pairwise-distinct rids make the rid a key. -/
theorem rid_inj {l : List Reservation}
    (hp : l.Pairwise fun a b => a.rid ≠ b.rid) :
    ∀ {a b : Reservation}, a ∈ l → b ∈ l → a.rid = b.rid → a = b := by
  induction l with
  | nil => intro a b ha _ _; cases ha
  | cons x xs ih =>
    intro a b ha hb h
    rcases List.pairwise_cons.mp hp with ⟨hx, hxs⟩
    rcases List.mem_cons.mp ha with rfl | ha2
    · rcases List.mem_cons.mp hb with rfl | hb2
      · rfl
      · exact absurd h (hx b hb2)
    · rcases List.mem_cons.mp hb with rfl | hb2
      · exact absurd h.symm (hx a ha2)
      · exact ih hxs ha2 hb2 h

/-- Mapping a rid-preserving, approval-monotone row update preserves the
locked-approval property. -/
theorem locked_map (l : List Reservation) (i : Nat) (f : Reservation → Reservation)
    (hrid : ∀ r, (f r).rid = r.rid)
    (happ : ∀ r, r.approved = true → (f r).approved = true)
    (hl : ∀ x ∈ l, x.rid = i → x.approved = true) :
    ∀ x ∈ l.map f, x.rid = i → x.approved = true := by
  intro x hx hxi
  rcases List.mem_map.mp hx with ⟨y, hy, rfl⟩
  exact happ y (hl y hy (by rw [← hrid y]; exact hxi))

/-- The CAS never touches the reservations table or the id counter. -/
theorem transfer_pass_keeps_reservations (db : DB) (f t n : Int) :
    (transfer_pass_with_lock db f t n).2.reservations = db.reservations ∧
    (transfer_pass_with_lock db f t n).2.next_id = db.next_id := by
  unfold transfer_pass_with_lock
  cases db.pass with
  | none => exact ⟨rfl, rfl⟩
  | some p => by_cases h : p.current_owner_id = f <;> simp [h]

/-- The AUTOINCREMENT counter never decreases. -/
theorem applyOp_next_id (op : DBOp) (db : DB) :
    db.next_id ≤ (applyOp op db).next_id := by
  cases op with
  | createRes u s e => simp [applyOp, create_reservation]
  | approveRes u s => simp [applyOp, approve_reservation_by_details]
  | inactivateRes u s => simp [applyOp, mark_reservation_inactive]
  | clearPending u => simp [applyOp, clear_user_pending_reservations]
  | cleanupOld c => simp [applyOp, cleanup_old_reservations]
  | transferPass f t n =>
    simp [applyOp, (transfer_pass_keeps_reservations db f t n).2]

/-- Every single operation preserves "all rows with this rid are approved",
provided the rid is below the counter (so newly created rows cannot reuse
it). -/
theorem applyOp_locked (op : DBOp) (db : DB) (i : Nat) (hb : i < db.next_id)
    (hl : approvedLocked db i) : approvedLocked (applyOp op db) i := by
  cases op with
  | createRes u s e =>
    intro x hx hxi
    rcases List.mem_append.mp hx with hx2 | hx2
    · exact hl x hx2 hxi
    · rcases List.mem_singleton.mp hx2 with rfl
      exact absurd hxi (by simp; omega)
  | approveRes u s =>
    refine locked_map _ i _ (fun r => ?_) (fun r h => ?_) hl
    · by_cases hc : r.user_id = u ∧ r.start_time = s ∧ r.active_status = true <;>
        simp [hc]
    · by_cases hc : r.user_id = u ∧ r.start_time = s ∧ r.active_status = true <;>
        simp [hc, h]
  | inactivateRes u s =>
    refine locked_map _ i _ (fun r => ?_) (fun r h => ?_) hl
    · by_cases hc : r.user_id = u ∧ r.start_time = s <;> simp [hc]
    · by_cases hc : r.user_id = u ∧ r.start_time = s <;> simp [hc, h]
  | clearPending u =>
    refine locked_map _ i _ (fun r => ?_) (fun r h => ?_) hl
    · by_cases hc : r.user_id = u ∧ r.active_status = true <;> simp [hc]
    · by_cases hc : r.user_id = u ∧ r.active_status = true <;> simp [hc, h]
  | cleanupOld c =>
    intro x hx hxi
    exact hl x (List.mem_of_mem_filter hx) hxi
  | transferPass f t n =>
    intro x hx hxi
    rw [show (applyOp (DBOp.transferPass f t n) db).reservations = db.reservations
      from (transfer_pass_keeps_reservations db f t n).1] at hx
    exact hl x hx hxi

/-- Extension of applyOp_locked to arbitrary operation sequences. -/
theorem applyOps_locked (ops : List DBOp) :
    ∀ (db : DB) (i : Nat), i < db.next_id → approvedLocked db i →
    approvedLocked (applyOps ops db) i := by
  induction ops with
  | nil => intro db i _ hl; exact hl
  | cons op rest ih =>
    intro db i hb hl
    have h1 := applyOp_locked op db i hb hl
    have h2 : i < (applyOp op db).next_id := lt_of_lt_of_le hb (applyOp_next_id op db)
    simpa [applyOps] using ih (applyOp op db) i h2 h1

/-- C8: approved = true is monotonic.  For every well-formed database, every
approved reservation and every sequence of the database operations (create,
approve, mark-inactive, clear-pending, cleanup, transfer), the surviving row
with that reservation's id is still approved: no operation, in particular the
revocation path (mark_reservation_inactive), ever clears the approved flag. -/
theorem C8_approved_monotonic (ops : List DBOp) (db : DB) (h : ridsOk db)
    (r : Reservation) (hr : r ∈ db.reservations) (ha : r.approved = true) :
    ∀ x ∈ (applyOps ops db).reservations, x.rid = r.rid → x.approved = true := by
  have hl : approvedLocked db r.rid := by
    intro x hx hxi
    rw [rid_inj h.2 hx hr hxi]
    exact ha
  exact applyOps_locked ops db r.rid (h.1 r hr) hl

/-- C8 witness: revoking (marking inactive) an approved reservation leaves the
row inactive but still approved. -/
theorem C8_approved_monotonic_witness :
    (⟨0, 1, 10, 20, false, true⟩ : Reservation) ∈
      (applyOps [DBOp.inactivateRes 1 10]
        ⟨none, [⟨0, 1, 10, 20, true, true⟩], 1, []⟩).reservations ∧
    (⟨0, 1, 10, 20, false, true⟩ : Reservation).approved = true :=
  ⟨by decide,
   C8_approved_monotonic [DBOp.inactivateRes 1 10]
     ⟨none, [⟨0, 1, 10, 20, true, true⟩], 1, []⟩
     ⟨by decide, by simp⟩
     ⟨0, 1, 10, 20, true, true⟩ (by decide) rfl
     ⟨0, 1, 10, 20, false, true⟩ (by decide) rfl⟩

/-- C7 counterexample: reservation creation enforces no uniqueness of the
(user_id, start_time) identity pair: two identical create_reservation calls
(which the request command admits, since its conflict check only inspects
approved reservations) leave two active reservations with the same pair. -/
theorem C7_counterexample :
    2 ≤ activePairCount (create_reservation
      (create_reservation ⟨none, [], 1, []⟩ 1 10 20) 1 10 20) 1 10 := by
  decide

/-- C7 amended: create_reservation unconditionally appends a new active row,
so it always increments the number of active reservations carrying the
(user_id, start_time) pair — even when one already exists, duplicating the
identity that approve-by-details and revoke-by-details look up. -/
theorem C7_amended_create_adds_pair (db : DB) (u s e : Int) :
    activePairCount (create_reservation db u s e) u s =
      activePairCount db u s + 1 := by
  simp [activePairCount, create_reservation, List.filter_append]

end Poloseek
